import Mathlib

/-!
Shallow embedding of the real-time chat core of the repository
(`chat/consumers.py`, `chat/views.py`, `chat/models.py`, `chat/serializers.py`)
and proofs about its behaviour.

Conventions:
* user / connection / message / conversation identifiers are `Nat`;
* timestamps are `Int` (seconds);
* Python `None` is `Option.none`; Django querysets over a table are Lean
  lists of records; `get`/`filter(...).exists()` become `List.find?` /
  `List.any`;
* the Fernet symmetric cipher (`cryptography.fernet`, an external library)
  is an abstract `Cipher` parameter: `enc key plain` / `dec key cipherText`
  return `none` exactly when the library call would raise.
-/

abbrev UserId := Nat
abbrev ConnId := Nat
abbrev MsgId := Nat
abbrev ConvId := Nat
abbrev Time := Int

/-- A conversation row (`chat/models.py`, `Conversation`). -/
structure Conv where
  conversation_id : ConvId
  participants : List UserId
  is_group : Bool
  encryption_key : Option String
  updated_at : Time
deriving Repr, DecidableEq

/-- A message row (`chat/models.py`, `Message`).  `content` is whatever the
`save` path stored (ciphertext when encryption succeeded). -/
structure Msg where
  message_id : MsgId
  conversation : ConvId
  sender : UserId
  content : String
  timestamp : Time
  message_type : String
  reply_to : Option MsgId
  is_edited : Bool
  edited_at : Option Time
  is_deleted : Bool
deriving Repr, DecidableEq

/-- A `UserStatus` row (`chat/models.py`). -/
structure UserStatusR where
  user : UserId
  status : String
  last_seen : Time
  is_typing_in : Option ConvId
  typing_started_at : Option Time
deriving Repr, DecidableEq

/-- The persistent store: one list per table. -/
structure DB where
  conversations : List Conv
  messages : List Msg
  reactions : List (MsgId × UserId × String)
  readStatuses : List (MsgId × UserId × Time)
  userStatuses : List UserStatusR
  messageDeletions : List (MsgId × UserId)
  conversationDeletions : List (ConvId × UserId)
deriving Repr, DecidableEq

def findConv (db : DB) (cid : ConvId) : Option Conv :=
  db.conversations.find? (fun c => c.conversation_id == cid)

def findMsg (db : DB) (mid : MsgId) : Option Msg :=
  db.messages.find? (fun m => m.message_id == mid)

/-- `MessageDeletion.objects.filter(message_id=…, user=…).exists()`. -/
def hasMessageDeletion (db : DB) (mid : MsgId) (u : UserId) : Bool :=
  db.messageDeletions.any (fun d => d.1 == mid && d.2 == u)

/-- `ConversationDeletion.objects.filter(conversation=…, user=…).exists()`. -/
def hasConversationDeletion (db : DB) (cid : ConvId) (u : UserId) : Bool :=
  db.conversationDeletions.any (fun d => d.1 == cid && d.2 == u)

/-- membership test `conversation.participants.filter(acc_id=u).exists()`
for the conversation `cid`. -/
def isParticipant (db : DB) (cid : ConvId) (u : UserId) : Bool :=
  match findConv db cid with
  | some c => c.participants.contains u
  | none => false

/-- The Fernet cipher used by `Conversation.encrypt_message` /
`decrypt_message`, abstracted: `enc`/`dec` return `none` exactly when the
library would raise an exception. -/
structure Cipher where
  enc : String → String → Option String
  dec : String → String → Option String

/-- Python truthiness of an `Option String` (`None` and `""` are falsy). -/
def strTruthy : Option String → Bool
  | none => false
  | some s => s != ""

/-- `Conversation.encrypt_message` (`chat/models.py` lines 52-66).
Returns the value the method returns and the possibly-updated conversation
row (a missing/empty key is generated as `freshKey` and saved). -/
def encrypt_message (ciph : Cipher) (freshKey : String) (conv : Conv)
    (message : Option String) : Option String × Conv :=
  if !(strTruthy message) then
    (message, conv)
  else
    let (key, conv') :=
      if !(strTruthy conv.encryption_key) then
        (freshKey, { conv with encryption_key := some freshKey })
      else
        (conv.encryption_key.getD "", conv)
    match ciph.enc key (message.getD "") with
    | some c => (some c, conv')
    | none => (some (message.getD ""), conv')

/-- `Conversation.decrypt_message` (`chat/models.py` lines 68-78). -/
def decrypt_message (ciph : Cipher) (conv : Conv)
    (encrypted_message : Option String) : Option String :=
  if !(strTruthy conv.encryption_key) || !(strTruthy encrypted_message) then
    encrypted_message
  else
    let key := conv.encryption_key.getD ""
    let e := encrypted_message.getD ""
    match ciph.dec key e with
    | some d => some d
    | none => some e

/-- `Message.get_decrypted_content` (`chat/models.py` lines 118-119). -/
def get_decrypted_content (ciph : Cipher) (db : DB) (m : Msg) : Option String :=
  match findConv db m.conversation with
  | some conv => decrypt_message ciph conv (some m.content)
  | none => some m.content

/-- The part of `MessageSerializer` output the hub's claims depend on
(`chat/serializers.py` lines 47-122): `content` is `None` when the viewing
user has a `MessageDeletion` row for the message, otherwise the decrypted
content. -/
structure SerializedMsg where
  message_id : MsgId
  content : Option String
  sender : UserId
  is_edited : Bool
deriving Repr, DecidableEq

/-- `MessageSerializer(message, context={'request': request}).data`, reduced
to the fields above; `viewer` is `request.user`. -/
def serializeMessage (ciph : Cipher) (db : DB) (viewer : UserId) (m : Msg) :
    SerializedMsg :=
  { message_id := m.message_id
    content :=
      if hasMessageDeletion db m.message_id viewer then none
      else get_decrypted_content ciph db m
    sender := m.sender
    is_edited := m.is_edited }

/-- Serialized `MessageReaction` (`MessageReactionSerializer`). -/
structure RData where
  reaction : String
  user : UserId
  created_at : Time
deriving Repr, DecidableEq

/-- The payload of a `channel_layer.group_send` call: the constructor is the
`"type"` field (the consumer method fan-out dispatches to). -/
inductive GEvent where
  | chatMessage (message : SerializedMsg)
  | messageEdited (message : SerializedMsg)
  | messageDeleted (message_id : MsgId) (user : UserId) (timestamp : Time)
  | messageRestored (message : SerializedMsg)
  | reactionEv (message_id : MsgId) (reaction : String) (user : UserId)
      (action : String) (reaction_data : Option RData) (timestamp : Time)
  | readReceipt (message_id : MsgId) (user : UserId) (read_at : Time)
  | userTyping (user : UserId) (is_typing : Bool) (timestamp : Time)
  | statusEv (user : UserId) (status : String) (timestamp : Time)
deriving Repr, DecidableEq

/-- The `"type"` string of a group-send payload, as written in the source. -/
def GEvent.btype : GEvent → String
  | .chatMessage _ => "chat_message_broadcast"
  | .messageEdited _ => "message_edited_broadcast"
  | .messageDeleted _ _ _ => "message_deleted_broadcast"
  | .messageRestored _ => "message_restored_broadcast"
  | .reactionEv _ _ _ _ _ _ => "reaction_broadcast"
  | .readReceipt _ _ _ => "read_receipt_broadcast"
  | .userTyping _ _ _ => "user_typing_broadcast"
  | .statusEv _ _ _ => "status_broadcast"

/-- One `group_send` call: target group plus payload. -/
structure GroupSend where
  group : String
  event : GEvent
deriving Repr, DecidableEq

/-- Per-recipient delivery decision made by the broadcast handler methods of
`ChatConsumer` (`chat/consumers.py` lines 335-405): `true` iff the handler
running on a connection whose authenticated user is `recipient` calls
`self.send`.
* `message_deleted_broadcast` suppresses delivery when the recipient has a
  `MessageDeletion` row for the message;
* `read_receipt_broadcast`, `user_typing_broadcast` and `status_broadcast`
  suppress delivery when the recipient's user id equals the acting user's;
* every other handler always sends. -/
def deliver (db : DB) (recipient : UserId) (e : GEvent) : Bool :=
  match e with
  | .messageDeleted mid _ _ => !(hasMessageDeletion db mid recipient)
  | .readReceipt _ u _ => u != recipient
  | .userTyping u _ _ => u != recipient
  | .statusEv u _ _ => u != recipient
  | _ => true

/-- A room: the live connections subscribed to one conversation's group,
each with its authenticated user.  `deliveredConns` is the subset of a room
a group-send payload actually reaches. -/
def deliveredConns (db : DB) (room : List (ConnId × UserId)) (e : GEvent) :
    List (ConnId × UserId) :=
  room.filter (fun p => deliver db p.2 e)

/-- Python `str.strip()`: drop leading and trailing whitespace.  (Defined
on the character list so that it evaluates inside the kernel.) -/
def pyStrip (s : String) : String :=
  String.mk (((s.data.dropWhile Char.isWhitespace).reverse.dropWhile
    Char.isWhitespace).reverse)

/-- Fields a decoded inbound frame may carry (`data.get(...)` in the
handlers); absent fields are `none`.  The file-upload `attachment` field is
outside this model. -/
structure InData where
  message : Option String
  message_id : Option MsgId
  reaction : Option String
  reply_to : Option MsgId
  message_type : Option String
  is_typing : Option Bool
deriving Repr, DecidableEq

/-- An inbound websocket frame: either text that fails `json.loads`
(`malformed`) or a decoded object with its `"type"` discriminator. -/
inductive Frame where
  | malformed
  | event (ty : String) (data : InData)
deriving Repr, DecidableEq

/-- Ambient values an operation draws on: the current clock, the uuid the
store assigns to a newly created message, and the Fernet key generated when
a conversation has none. -/
structure Env where
  now : Time
  freshMsgId : MsgId
  freshKey : String
deriving Repr, DecidableEq

/-- A live consumer instance: its authenticated user (`none` when
authentication did not resolve an identity) and the conversation id from
the URL route. -/
structure Conn where
  user : Option UserId
  conversation_id : ConvId
deriving Repr, DecidableEq

/-- `self.room_group_name = f"chat_{self.conversation_id}"`. -/
def roomGroup (cid : ConvId) : String := "chat_" ++ toString cid

/-- A frame sent directly to the handling connection itself. -/
inductive OutMsg where
  | error (message : String)
  | pong (timestamp : Time)
deriving Repr, DecidableEq

/-- Everything `ChatConsumer.receive` does with one inbound frame: the
updated store, frames sent back to the sender only, `group_send` calls, and
whether the connection was closed (`receive` contains no `close` call, so
this is always `false`). -/
structure RecvResult where
  db : DB
  sent : List OutMsg
  broadcasts : List GroupSend
  closed : Bool
deriving Repr, DecidableEq

def noChange (db : DB) : RecvResult := ⟨db, [], [], false⟩

def errTo (db : DB) (m : String) : RecvResult := ⟨db, [.error m], [], false⟩

/-- save an updated conversation row back by primary key `cid`. -/
def replaceConv (db : DB) (cid : ConvId) (c : Conv) : DB :=
  { db with conversations :=
      db.conversations.map (fun x => if x.conversation_id == cid then c else x) }

def replaceMsg (db : DB) (m : Msg) : DB :=
  { db with messages :=
      db.messages.map (fun x => if x.message_id == m.message_id then m else x) }

/-- Row created by `UserStatus.objects.get_or_create(user=u)` when none
exists (model defaults: status `offline`, typing fields null). -/
def defaultUserStatus (u : UserId) (now : Time) : UserStatusR :=
  { user := u, status := "offline", last_seen := now,
    is_typing_in := none, typing_started_at := none }

/-- `get_or_create` the user's status row, then mutate and save it. -/
def upsertUserStatus (db : DB) (now : Time) (u : UserId)
    (f : UserStatusR → UserStatusR) : DB :=
  match db.userStatuses.find? (fun s => s.user == u) with
  | some _ =>
      { db with userStatuses :=
          db.userStatuses.map (fun s => if s.user == u then f s else s) }
  | none =>
      { db with userStatuses := f (defaultUserStatus u now) :: db.userStatuses }

/-- `ChatConsumer.save_message` (`chat/consumers.py` lines 457-485):
`none` when the conversation lookup raises `Http404`.  Encryption of the
content happens inside `Message.save` (`chat/models.py` lines 121-127). -/
def save_message (ciph : Cipher) (env : Env) (db : DB) (u : UserId)
    (cid : ConvId) (content : String) (reply_to_id : Option MsgId)
    (message_type : String) : Option (DB × Msg) :=
  match findConv db cid with
  | none => none
  | some conv =>
    let reply_to : Option MsgId :=
      match reply_to_id with
      | some rid => (findMsg db rid).map (fun m => m.message_id)
      | none => none
    let (encContent, conv') := encrypt_message ciph env.freshKey conv (some content)
    let msg : Msg :=
      { message_id := env.freshMsgId, conversation := cid, sender := u,
        content := encContent.getD "", timestamp := env.now,
        message_type := message_type, reply_to := reply_to,
        is_edited := false, edited_at := none, is_deleted := false }
    let db1 := replaceConv db cid { conv' with updated_at := env.now }
    some ({ db1 with messages := msg :: db1.messages }, msg)

/-- `ChatConsumer.edit_message` (`chat/consumers.py` lines 487-501): `none`
when no message has this id with this sender (`get_object_or_404` with
`sender=self.user`). -/
def edit_message (ciph : Cipher) (env : Env) (db : DB) (u : UserId)
    (mid : MsgId) (new_content : String) : Option (DB × Msg) :=
  match db.messages.find? (fun m => m.message_id == mid && m.sender == u) with
  | none => none
  | some m =>
    match findConv db m.conversation with
    | none => none
    | some conv =>
      let (encContent, conv') := encrypt_message ciph env.freshKey conv (some new_content)
      let m' := { m with content := encContent.getD "",
                         is_edited := true, edited_at := some env.now }
      some (replaceMsg (replaceConv db m.conversation conv') m', m')

/-- `ChatConsumer.delete_message_for_user` (`chat/consumers.py` lines
503-516): `none` when the message is missing or the user is not a
participant of its conversation (both raise). -/
def delete_message_for_user (db : DB) (u : UserId) (mid : MsgId) : Option DB :=
  match findMsg db mid with
  | none => none
  | some m =>
    if !(isParticipant db m.conversation u) then none
    else if db.messageDeletions.contains (mid, u) then some db
    else some { db with messageDeletions := (mid, u) :: db.messageDeletions }

/-- `ChatConsumer.toggle_reaction` (`chat/consumers.py` lines 554-575):
`none` when the message does not exist; otherwise the action string, the
serialized reaction (present only when added) and the updated store. -/
def toggle_reaction (env : Env) (db : DB) (u : UserId) (mid : MsgId)
    (reaction : String) : Option (String × Option RData × DB) :=
  match findMsg db mid with
  | none => none
  | some _ =>
    if db.reactions.contains (mid, u, reaction) then
      some ("removed", none,
        { db with reactions :=
            db.reactions.filter (fun r => !(r == (mid, u, reaction))) })
    else
      some ("added", some { reaction := reaction, user := u, created_at := env.now },
        { db with reactions := (mid, u, reaction) :: db.reactions })

/-- `ChatConsumer.mark_message_read` (`chat/consumers.py` lines 577-589):
`update_or_create` on the `(message, user)` pair. -/
def mark_message_read (env : Env) (db : DB) (u : UserId) (mid : MsgId) :
    Option DB :=
  match findMsg db mid with
  | none => none
  | some _ =>
    some { db with readStatuses :=
      (mid, u, env.now) ::
        db.readStatuses.filter (fun r => !(r.1 == mid && r.2.1 == u)) }

/-- `ChatConsumer.set_user_status` (`chat/consumers.py` lines 591-599). -/
def set_user_status (env : Env) (db : DB) (u : UserId) (st : String) : DB :=
  upsertUserStatus db env.now u (fun s => { s with status := st, last_seen := env.now })

/-- `ChatConsumer.set_typing_status` (`chat/consumers.py` lines 601-616):
`none` when the conversation lookup raises `DoesNotExist`. -/
def set_typing_status (env : Env) (db : DB) (u : UserId) (cid : ConvId)
    (is_typing : Bool) : Option DB :=
  match findConv db cid with
  | none => none
  | some _ =>
    some (upsertUserStatus db env.now u (fun s =>
      if is_typing then
        { s with is_typing_in := some cid, typing_started_at := some env.now }
      else
        { s with is_typing_in := none, typing_started_at := none }))

/-- `ChatConsumer.clear_typing_status` (`chat/consumers.py` lines 618-627):
no-op when the user has no status row. -/
def clear_typing_status (db : DB) (u : UserId) : DB :=
  { db with userStatuses := db.userStatuses.map (fun s =>
      if s.user == u then
        { s with is_typing_in := none, typing_started_at := none }
      else s) }

/-- `ChatConsumer.handle_chat_message` (`chat/consumers.py` lines 146-185). -/
def handle_chat_message (ciph : Cipher) (env : Env) (db : DB) (c : Conn)
    (data : InData) : RecvResult :=
  match c.user with
  | none => errTo db "Authentication required"
  | some u =>
    let message_content := pyStrip (data.message.getD "")
    if message_content == "" then
      errTo db "Message content cannot be empty"
    else
      match save_message ciph env db u c.conversation_id message_content
          data.reply_to (data.message_type.getD "text") with
      | none => errTo db "Failed to save message"
      | some (db1, msg) =>
        let serialized := serializeMessage ciph db1 u msg
        { db := clear_typing_status db1 u
          sent := []
          broadcasts := [⟨roomGroup c.conversation_id, .chatMessage serialized⟩]
          closed := false }

/-- `ChatConsumer.handle_message_edit` (`chat/consumers.py` lines 187-216). -/
def handle_message_edit (ciph : Cipher) (env : Env) (db : DB) (c : Conn)
    (data : InData) : RecvResult :=
  match c.user with
  | none => errTo db "Authentication required"
  | some u =>
    let new_content := pyStrip (data.message.getD "")
    match data.message_id with
    | none => errTo db "Message ID and content are required"
    | some mid =>
      if new_content == "" then
        errTo db "Message ID and content are required"
      else
        match edit_message ciph env db u mid new_content with
        | none => errTo db "Failed to edit message"
        | some (db1, m') =>
          { db := db1
            sent := []
            broadcasts :=
              [⟨roomGroup c.conversation_id, .messageEdited (serializeMessage ciph db1 u m')⟩]
            closed := false }

/-- `ChatConsumer.handle_message_delete` (`chat/consumers.py` lines 218-245).
The broadcast is emitted whenever `delete_message_for_user` returns, i.e.
also when the deletion row already existed. -/
def handle_message_delete (env : Env) (db : DB) (c : Conn) (data : InData) :
    RecvResult :=
  match c.user with
  | none => errTo db "Authentication required"
  | some u =>
    match data.message_id with
    | none => errTo db "Message ID is required"
    | some mid =>
      match delete_message_for_user db u mid with
      | none => errTo db "Failed to delete message"
      | some db1 =>
        { db := db1
          sent := []
          broadcasts := [⟨roomGroup c.conversation_id, .messageDeleted mid u env.now⟩]
          closed := false }

/-- `ChatConsumer.handle_reaction` (`chat/consumers.py` lines 247-277).
No validation of the reaction kind happens on this path. -/
def handle_reaction (env : Env) (db : DB) (c : Conn) (data : InData) :
    RecvResult :=
  match c.user with
  | none => errTo db "Authentication required"
  | some u =>
    match data.message_id with
    | none => errTo db "Message ID and reaction are required"
    | some mid =>
      if !(strTruthy data.reaction) then
        errTo db "Message ID and reaction are required"
      else
        let reaction := data.reaction.getD ""
        match toggle_reaction env db u mid reaction with
        | none => errTo db "Failed to process reaction: Message not found"
        | some (action, rdata, db1) =>
          { db := db1
            sent := []
            broadcasts :=
              [⟨roomGroup c.conversation_id, .reactionEv mid reaction u action rdata env.now⟩]
            closed := false }

/-- `ChatConsumer.handle_read_receipt` (`chat/consumers.py` lines 279-301).
An unauthenticated sender or a missing `message_id` returns silently:
no error frame, no broadcast, no state change. -/
def handle_read_receipt (env : Env) (db : DB) (c : Conn) (data : InData) :
    RecvResult :=
  match c.user with
  | none => noChange db
  | some u =>
    match data.message_id with
    | none => noChange db
    | some mid =>
      match mark_message_read env db u mid with
      | none => errTo db "Failed to mark message as read: Message not found"
      | some db1 =>
        { db := db1
          sent := []
          broadcasts := [⟨roomGroup c.conversation_id, .readReceipt mid u env.now⟩]
          closed := false }

/-- `ChatConsumer.handle_user_typing` (`chat/consumers.py` lines 303-323).
An unauthenticated sender returns silently. -/
def handle_user_typing (env : Env) (db : DB) (c : Conn) (data : InData) :
    RecvResult :=
  match c.user with
  | none => noChange db
  | some u =>
    let is_typing := data.is_typing.getD false
    match set_typing_status env db u c.conversation_id is_typing with
    | none => errTo db "Failed to update typing status"
    | some db1 =>
      { db := db1
        sent := []
        broadcasts := [⟨roomGroup c.conversation_id, .userTyping u is_typing env.now⟩]
        closed := false }

/-- `ChatConsumer.handle_ping` (`chat/consumers.py` lines 326-330). -/
def handle_ping (env : Env) (db : DB) : RecvResult :=
  ⟨db, [.pong env.now], [], false⟩

/-- `ChatConsumer.receive` (`chat/consumers.py` lines 76-100): decode,
dispatch on the `"type"` string, fall back to an error frame for unknown
kinds and for undecodable text.  No branch closes the connection. -/
def receive (ciph : Cipher) (env : Env) (db : DB) (c : Conn) (frame : Frame) :
    RecvResult :=
  match frame with
  | .malformed => errTo db "Invalid JSON format"
  | .event ty data =>
    if ty == "chat_message" then handle_chat_message ciph env db c data
    else if ty == "message_edit" then handle_message_edit ciph env db c data
    else if ty == "message_delete" then handle_message_delete env db c data
    else if ty == "reaction" then handle_reaction env db c data
    else if ty == "read_receipt" then handle_read_receipt env db c data
    else if ty == "user_typing" then handle_user_typing env db c data
    else if ty == "ping" then handle_ping env db
    else errTo db "Unknown event type"

/-- Outcome of the websocket handshake. -/
inductive ConnectResult where
  | closed (code : Nat)
  | accepted
deriving Repr, DecidableEq

/-- `Conversation.objects.get(conversation_id=…, participants=user)` —
the lookup shared by `verify_conversation_access` and the
`get_object_or_404` calls of the REST views. -/
def findConvWithParticipant (db : DB) (cid : ConvId) (u : UserId) : Option Conv :=
  db.conversations.find?
    (fun c => c.conversation_id == cid && c.participants.contains u)

/-- `ChatConsumer.verify_conversation_access` (`chat/consumers.py` lines
441-455): the conversation must exist with the user among its participants
and the user must not have a `ConversationDeletion` row for it. -/
def verify_conversation_access (db : DB) (u : UserId) (cid : ConvId) : Bool :=
  match findConvWithParticipant db cid u with
  | some _ => !(hasConversationDeletion db cid u)
  | none => false

/-- Admission decision of `ChatConsumer.connect` (`chat/consumers.py` lines
31-61): close 4001 when authentication resolved no identity, close 4003
when access verification fails, otherwise join the group and accept.  (The
post-accept presence update and status broadcast are outside this
definition.) -/
def wsConnect (db : DB) (auth : Option UserId) (cid : ConvId) : ConnectResult :=
  match auth with
  | none => .closed 4001
  | some u =>
    if verify_conversation_access db u cid then .accepted
    else .closed 4003

/-- Outcome of a REST endpoint: updated store, HTTP status, group sends. -/
structure RestResult where
  db : DB
  status : Nat
  broadcasts : List GroupSend
deriving Repr, DecidableEq

/-- `MessageReaction.REACTION_CHOICES` keys (`chat/models.py` lines 141-148). -/
def REACTION_CHOICES : List String := ["like", "love", "laugh", "wow", "sad", "angry"]

/-- `MessageListCreateView.perform_create` (`chat/views.py` lines 90-128)
together with the serializer validation of `message_content` (a required,
whitespace-trimming, non-blank `CharField`).  `message_type` is left at its
model default. -/
def rest_create_message (ciph : Cipher) (env : Env) (db : DB) (u : UserId)
    (cid : ConvId) (message_content : String) (reply_to_req : Option MsgId) :
    RestResult :=
  match findConvWithParticipant db cid u with
  | none => ⟨db, 404, []⟩
  | some conv =>
    let content := pyStrip message_content
    if content == "" then ⟨db, 400, []⟩
    else
      let rt : Option (Option MsgId) :=
        match reply_to_req with
        | none => some none
        | some rid =>
          match findMsg db rid with
          | none => none
          | some m => some (some m.message_id)
      match rt with
      | none => ⟨db, 404, []⟩
      | some reply_to =>
        let (encContent, conv') := encrypt_message ciph env.freshKey conv (some content)
        let msg : Msg :=
          { message_id := env.freshMsgId, conversation := cid, sender := u,
            content := encContent.getD "", timestamp := env.now,
            message_type := "text", reply_to := reply_to,
            is_edited := false, edited_at := none, is_deleted := false }
        let db1 := replaceConv db cid { conv' with updated_at := env.now }
        let db2 := { db1 with messages := msg :: db1.messages }
        let db3 := upsertUserStatus db2 env.now u (fun s =>
          { s with is_typing_in := none, typing_started_at := none })
        ⟨db3, 201, [⟨roomGroup cid, .chatMessage (serializeMessage ciph db3 u msg)⟩]⟩

/-- `delete_message` REST endpoint (`chat/views.py` lines 164-199): the
broadcast happens only when the `MessageDeletion` row was newly created. -/
def rest_delete_message (env : Env) (db : DB) (u : UserId) (mid : MsgId) :
    RestResult :=
  match findMsg db mid with
  | none => ⟨db, 404, []⟩
  | some m =>
    if !(isParticipant db m.conversation u) then ⟨db, 403, []⟩
    else if db.messageDeletions.contains (mid, u) then ⟨db, 200, []⟩
    else
      ⟨{ db with messageDeletions := (mid, u) :: db.messageDeletions }, 200,
        [⟨roomGroup m.conversation, .messageDeleted mid u env.now⟩]⟩

/-- `add_reaction` REST endpoint (`chat/views.py` lines 329-376): rejects
reaction kinds outside `REACTION_CHOICES`, then performs the same toggle and
broadcast as the realtime handler. -/
def rest_add_reaction (env : Env) (db : DB) (u : UserId) (mid : MsgId)
    (reaction_type : String) : RestResult :=
  match findMsg db mid with
  | none => ⟨db, 404, []⟩
  | some m =>
    if !(REACTION_CHOICES.contains reaction_type) then ⟨db, 400, []⟩
    else
      match toggle_reaction env db u mid reaction_type with
      | none => ⟨db, 404, []⟩
      | some (action, rdata, db1) =>
        ⟨db1, 200,
          [⟨roomGroup m.conversation,
            .reactionEv mid reaction_type u action rdata env.now⟩]⟩

/-- `conversation.messages.filter(is_deleted=False).exclude(user_deletions__user=u).first()`
under the model ordering `-timestamp`. -/
def latestEligibleMsg (db : DB) (cid : ConvId) (u : UserId) : Option Msg :=
  (db.messages.filter (fun m =>
      m.conversation == cid && !m.is_deleted &&
        !(hasMessageDeletion db m.message_id u))).foldl
    (fun acc m =>
      match acc with
      | none => some m
      | some b => if m.timestamp > b.timestamp then some m else acc)
    none

/-- `mark_messages_read` REST endpoint (`chat/views.py` lines 268-306). -/
def rest_mark_messages_read (env : Env) (db : DB) (u : UserId) (cid : ConvId) :
    RestResult :=
  match findConvWithParticipant db cid u with
  | none => ⟨db, 404, []⟩
  | some _ =>
    match latestEligibleMsg db cid u with
    | none => ⟨db, 200, []⟩
    | some lm =>
      let db1 := { db with readStatuses :=
        (lm.message_id, u, env.now) ::
          db.readStatuses.filter (fun r => !(r.1 == lm.message_id && r.2.1 == u)) }
      ⟨db1, 200, [⟨roomGroup cid, .readReceipt lm.message_id u env.now⟩]⟩

/-- `set_typing_status` REST endpoint (`chat/views.py` lines 378-413). -/
def rest_set_typing_status (env : Env) (db : DB) (u : UserId) (cid : ConvId)
    (is_typing : Bool) : RestResult :=
  match findConvWithParticipant db cid u with
  | none => ⟨db, 404, []⟩
  | some _ =>
    let db1 := upsertUserStatus db env.now u (fun s =>
      if is_typing then
        { s with is_typing_in := some cid, typing_started_at := some env.now }
      else
        { s with is_typing_in := none, typing_started_at := none })
    ⟨db1, 200, [⟨roomGroup cid, .userTyping u is_typing env.now⟩]⟩

/-- `deletion.delete()` on the unique `MessageDeletion(message, user)` row. -/
def removeMessageDeletion (db : DB) (mid : MsgId) (u : UserId) : DB :=
  { db with messageDeletions :=
      db.messageDeletions.filter (fun d => !(d == (mid, u))) }

/-- `restore_message` REST endpoint (`chat/views.py` lines 223-248): removes
the requester's `MessageDeletion` row when present and broadcasts the
message serialized against the updated store; otherwise HTTP 400 and no
change. -/
def rest_restore_message (ciph : Cipher) (db : DB) (u : UserId)
    (mid : MsgId) : RestResult :=
  match findMsg db mid with
  | none => ⟨db, 404, []⟩
  | some m =>
    if db.messageDeletions.contains (mid, u) then
      let db1 := removeMessageDeletion db mid u
      ⟨db1, 200,
        [⟨roomGroup m.conversation, .messageRestored (serializeMessage ciph db1 u m)⟩]⟩
    else ⟨db, 400, []⟩

/-- `ConversationSerializer.get_typing_users` (`chat/serializers.py` lines
176-181): status rows typing in this conversation whose
`typing_started_at >= now - 10s`, excluding the requesting user. -/
def get_typing_users (statuses : List UserStatusR) (cid : ConvId) (now : Time)
    (requester : Option UserId) : List UserId :=
  (statuses.filter (fun s =>
    s.is_typing_in == some cid &&
    (match s.typing_started_at with
     | some t => decide (now - 10 ≤ t)
     | none => false) &&
    (match requester with
     | some r => s.user != r
     | none => true))).map (fun s => s.user)

/-!  Concrete fixtures used by witness and counterexample theorems. -/

/-- A concrete well-behaved cipher: prefixes the plaintext with `"C"`;
decryption strips it and fails on anything not of that shape. -/
def demoCipher : Cipher :=
  { enc := fun _ m => some (String.mk ('C' :: m.data))
    dec := fun _ s =>
      match s.data with
      | 'C' :: rest => some (String.mk rest)
      | _ => none }

def conv0 : Conv :=
  { conversation_id := 1, participants := [7, 8], is_group := false,
    encryption_key := some "key1", updated_at := 0 }

def msg0 : Msg :=
  { message_id := 1, conversation := 1, sender := 8, content := "Chello",
    timestamp := 0, message_type := "text", reply_to := none,
    is_edited := false, edited_at := none, is_deleted := false }

def db0 : DB :=
  { conversations := [conv0], messages := [msg0], reactions := [],
    readStatuses := [], userStatuses := [], messageDeletions := [],
    conversationDeletions := [] }

/-- `db0` after user 7 soft-deleted message 1. -/
def db0del : DB := { db0 with messageDeletions := [(1, 7)] }

def env0 : Env := { now := 100, freshMsgId := 42, freshKey := "freshK" }

def emptyData : InData :=
  { message := none, message_id := none, reaction := none,
    reply_to := none, message_type := none, is_typing := none }

/-- Claim C9: for a conversation whose encryption key is non-empty and a
non-empty message `m`, `decrypt_message` inverts `encrypt_message` (given
the cipher's round-trip contract); `None` and empty content pass through
both functions unchanged; and a decryption failure returns the stored
input instead of raising. -/
theorem C9_encrypt_decrypt_roundtrip
    (ciph : Cipher) (freshKey k m c e : String) (conv : Conv)
    (hkey : conv.encryption_key = some k) (hk : k ≠ "") (hm : m ≠ "")
    (henc : ciph.enc k m = some c) (hc : c ≠ "")
    (hdec : ciph.dec k c = some m)
    (he : e ≠ "") (hfail : ciph.dec k e = none) :
    decrypt_message ciph (encrypt_message ciph freshKey conv (some m)).2
        (encrypt_message ciph freshKey conv (some m)).1 = some m
    ∧ encrypt_message ciph freshKey conv none = (none, conv)
    ∧ encrypt_message ciph freshKey conv (some "") = (some "", conv)
    ∧ decrypt_message ciph conv none = none
    ∧ decrypt_message ciph conv (some "") = some ""
    ∧ decrypt_message ciph conv (some e) = some e := by
  have hEnc :
      encrypt_message ciph freshKey conv (some m) = (some c, conv) := by
    simp [encrypt_message, strTruthy, hkey, hk, hm, henc]
  refine ⟨?_, ?_, ?_, ?_, ?_, ?_⟩
  · rw [hEnc]
    simp [decrypt_message, strTruthy, hkey, hk, hc, hdec]
  · simp [encrypt_message, strTruthy]
  · simp [encrypt_message, strTruthy]
  · simp [decrypt_message, strTruthy]
  · simp [decrypt_message, strTruthy]
  · simp [decrypt_message, strTruthy, hkey, hk, he, hfail]

/-- Witness for C9 at the concrete cipher and conversation fixtures. -/
theorem C9_witness :
    decrypt_message demoCipher (encrypt_message demoCipher "fk" conv0 (some "hello")).2
        (encrypt_message demoCipher "fk" conv0 (some "hello")).1 = some "hello"
    ∧ encrypt_message demoCipher "fk" conv0 none = (none, conv0)
    ∧ encrypt_message demoCipher "fk" conv0 (some "") = (some "", conv0)
    ∧ decrypt_message demoCipher conv0 none = none
    ∧ decrypt_message demoCipher conv0 (some "") = some ""
    ∧ decrypt_message demoCipher conv0 (some "xyz") = some "xyz" :=
  C9_encrypt_decrypt_roundtrip demoCipher "fk" "key1" "hello" "Chello" "xyz"
    conv0 rfl (by decide) (by decide) (by decide) (by decide) (by decide)
    (by decide) (by decide)

/-- Claim C4: starting from a state with no `(M, U, K)` reaction, the
realtime reaction toggle applied once stores exactly one such reaction and
reports action `"added"`; applied a second time it removes it, leaving zero
and reporting `"removed"`. -/
theorem C4_reaction_toggle_pair (env env' : Env) (db : DB) (u : UserId)
    (mid : MsgId) (k : String) (msg : Msg)
    (hmsg : findMsg db mid = some msg)
    (h0 : db.reactions.count (mid, u, k) = 0) :
    ∃ rd db1 db2,
      toggle_reaction env db u mid k = some ("added", some rd, db1)
      ∧ db1.reactions.count (mid, u, k) = 1
      ∧ toggle_reaction env' db1 u mid k = some ("removed", none, db2)
      ∧ db2.reactions.count (mid, u, k) = 0 := by
  have hmem : (mid, u, k) ∉ db.reactions := by
    rw [← List.count_eq_zero]; exact h0
  have hc0 : db.reactions.contains (mid, u, k) = false := by
    rw [Bool.eq_false_iff]
    intro hc
    rcases (List.contains_iff_exists_mem_beq (l := db.reactions)
        (a := (mid, u, k))).mp hc with ⟨b, hb, he⟩
    rcases eq_of_beq he with rfl
    exact hmem hb
  refine ⟨{ reaction := k, user := u, created_at := env.now },
    { db with reactions := (mid, u, k) :: db.reactions }, ?_⟩
  have h1 : toggle_reaction env db u mid k =
      some ("added", some { reaction := k, user := u, created_at := env.now },
        { db with reactions := (mid, u, k) :: db.reactions }) := by
    rw [toggle_reaction, hmsg]
    simp [hc0, hmem]
  have hmsg1 :
      findMsg { db with reactions := (mid, u, k) :: db.reactions } mid = some msg := hmsg
  refine ⟨{ db with reactions :=
      ((mid, u, k) :: db.reactions).filter (fun r => !(r == (mid, u, k))) },
    h1, ?_, ?_, ?_⟩
  · simpa [List.count_cons_self] using h0
  · rw [toggle_reaction, hmsg1]
    simp
  · rw [List.count_eq_zero]
    intro hin
    rcases List.mem_filter.mp hin with ⟨_, hpred⟩
    simp at hpred

/-- Witness for C4: toggling `like` on message 1 by user 7 in `db0`. -/
theorem C4_witness :
    ∃ rd db1 db2,
      toggle_reaction env0 db0 7 1 "like" = some ("added", some rd, db1)
      ∧ db1.reactions.count (1, 7, "like") = 1
      ∧ toggle_reaction env0 db1 7 1 "like" = some ("removed", none, db2)
      ∧ db2.reactions.count (1, 7, "like") = 0 :=
  C4_reaction_toggle_pair env0 env0 db0 7 1 "like" msg0 (by decide) (by decide)

/-- Claim C5: at handshake, failed identity resolution closes with code
4001; a resolved identity that is not a participant of the conversation, or
that has a `ConversationDeletion` marker for it, closes with code 4003;
only otherwise is the connection admitted. -/
theorem C5_connect_admission (db : DB) (cid : ConvId) (u : UserId) :
    wsConnect db none cid = .closed 4001
    ∧ (findConvWithParticipant db cid u = none →
        wsConnect db (some u) cid = .closed 4003)
    ∧ (∀ conv, findConvWithParticipant db cid u = some conv →
        hasConversationDeletion db cid u = true →
        wsConnect db (some u) cid = .closed 4003)
    ∧ (∀ conv, findConvWithParticipant db cid u = some conv →
        hasConversationDeletion db cid u = false →
        wsConnect db (some u) cid = .accepted) := by
  refine ⟨rfl, ?_, ?_, ?_⟩
  · intro h
    simp [wsConnect, verify_conversation_access, h]
  · intro conv h hdel
    simp [wsConnect, verify_conversation_access, h, hdel]
  · intro conv h hdel
    simp [wsConnect, verify_conversation_access, h, hdel]

/-- Witness for C5: user 7 is a participant of conversation 1 in `db0` and
is admitted; user 9 is no participant and is rejected with 4003; a missing
identity is rejected with 4001; user 7 with a `ConversationDeletion` marker
is rejected with 4003. -/
theorem C5_witness :
    wsConnect db0 none 1 = .closed 4001
    ∧ wsConnect db0 (some 9) 1 = .closed 4003
    ∧ wsConnect { db0 with conversationDeletions := [(1, 7)] } (some 7) 1
        = .closed 4003
    ∧ wsConnect db0 (some 7) 1 = .accepted :=
  ⟨(C5_connect_admission db0 1 7).1,
   (C5_connect_admission db0 1 9).2.1 (by decide),
   (C5_connect_admission { db0 with conversationDeletions := [(1, 7)] } 1 7).2.2.1
     conv0 (by decide) (by decide),
   (C5_connect_admission db0 1 7).2.2.2 conv0 (by decide) (by decide)⟩

/-- Concrete `UserStatus` row: user 5 typing in conversation 1 since time 0. -/
def typingS : UserStatusR :=
  { user := 5, status := "online", last_seen := 0,
    is_typing_in := some 1, typing_started_at := some 0 }

/-- Counterexample for C7: a typing state set at time 0 and queried at time
10 — exactly the 10-second window elapsed, not strictly less — is still
reported active by `get_typing_users`, because the source filters with
`typing_started_at__gte = now - 10s` (boundary inclusive). -/
theorem C7_counterexample :
    get_typing_users [typingS] 1 10 none = [5]
    ∧ ¬((10 : Time) - 0 < 10) := by
  constructor
  · rfl
  · decide

/-- Claim C7, amended: a typing state started at `tstart` is reported by
`get_typing_users` at query time `now` iff `now - tstart ≤ 10` (boundary
inclusive, not strict); in particular a query 11 seconds after the typing
state was set reports not-typing without any explicit clear call. -/
theorem C7_typing_window (s : UserStatusR) (cid : ConvId) (now tstart : Time)
    (u : UserId) (hu : s.user = u) (hin : s.is_typing_in = some cid)
    (ht : s.typing_started_at = some tstart) :
    (u ∈ get_typing_users [s] cid now none ↔ now - tstart ≤ 10)
    ∧ u ∉ get_typing_users [s] cid (tstart + 11) none := by
  subst hu
  constructor
  · simp [get_typing_users, hin, ht]
    constructor
    · rintro ⟨a, ⟨rfl, -, hm⟩, -⟩
      rw [ht] at hm
      simp at hm
      linarith
    · intro h
      refine ⟨s, ⟨rfl, hin, ?_⟩, rfl⟩
      rw [ht]
      simp
      linarith
  · simp [get_typing_users, hin, ht]

/-- Witness for C7: typing set at time 0, queried at time 5 (reported) and
at time 11 (not reported). -/
theorem C7_witness :
    ((5 : UserId) ∈ get_typing_users [typingS] 1 5 none ↔ (5 : Time) - 0 ≤ 10)
    ∧ (5 : UserId) ∉ get_typing_users [typingS] 1 ((0 : Time) + 11) none :=
  C7_typing_window typingS 1 5 0 5 rfl rfl rfl

/-- Counterexample for C1: in `db0del`, user 7 has a `MessageDeletion` row
for message 1, yet the `message_edited_broadcast` and `reaction_broadcast`
handlers still deliver events referencing message 1 to user 7's
connection — only `message_deleted_broadcast` filters. -/
theorem C1_counterexample :
    hasMessageDeletion db0del 1 7 = true
    ∧ deliver db0del 7 (.messageEdited
        { message_id := 1, content := some "new text", sender := 8,
          is_edited := true }) = true
    ∧ deliver db0del 7 (.reactionEv 1 "like" 8 "added" none 100) = true := by
  refine ⟨rfl, rfl, rfl⟩

/-- Claim C1, amended: only the `message-deleted` broadcast is filtered by
`MessageDeletion` rows — a user with such a row for message M never
receives the message-deleted broadcast for M while members without the row
still do; `message-updated` and `reaction-changed` broadcasts referencing M
are delivered to every room connection, including those of users holding a
`MessageDeletion` row for M. -/
theorem C1_soft_delete_filtering (db : DB) (room : List (ConnId × UserId))
    (mid : MsgId) (u v actor : UserId) (t : Time) (sm : SerializedMsg)
    (k a : String) (rd : Option RData)
    (hu : hasMessageDeletion db mid u = true)
    (hv : hasMessageDeletion db mid v = false) :
    deliver db u (.messageDeleted mid actor t) = false
    ∧ deliver db v (.messageDeleted mid actor t) = true
    ∧ deliver db u (.messageEdited sm) = true
    ∧ deliver db u (.reactionEv mid k actor a rd t) = true
    ∧ deliveredConns db room (.messageDeleted mid actor t)
        = room.filter (fun p => !(hasMessageDeletion db mid p.2))
    ∧ deliveredConns db room (.messageEdited sm) = room
    ∧ deliveredConns db room (.reactionEv mid k actor a rd t) = room := by
  refine ⟨?_, ?_, rfl, rfl, rfl, ?_, ?_⟩
  · simp [deliver, hu]
  · simp [deliver, hv]
  · simp [deliveredConns, deliver]
  · simp [deliveredConns, deliver]

/-- Witness for C1 amended, in `db0del` (user 7 deleted message 1, user 8
did not) with room `[(1, 7), (2, 8)]`. -/
theorem C1_witness :
    deliver db0del 7 (.messageDeleted 1 8 100) = false
    ∧ deliver db0del 8 (.messageDeleted 1 8 100) = true
    ∧ deliver db0del 7 (.messageEdited
        { message_id := 1, content := some "x", sender := 8,
          is_edited := true }) = true
    ∧ deliver db0del 7 (.reactionEv 1 "like" 8 "added" none 100) = true
    ∧ deliveredConns db0del [(1, 7), (2, 8)] (.messageDeleted 1 8 100)
        = [(1, 7), (2, 8)].filter (fun p => !(hasMessageDeletion db0del 1 p.2))
    ∧ deliveredConns db0del [(1, 7), (2, 8)] (.messageEdited
        { message_id := 1, content := some "x", sender := 8,
          is_edited := true }) = [(1, 7), (2, 8)]
    ∧ deliveredConns db0del [(1, 7), (2, 8)]
        (.reactionEv 1 "like" 8 "added" none 100) = [(1, 7), (2, 8)] :=
  C1_soft_delete_filtering db0del [(1, 7), (2, 8)] 1 7 8 8 100
    { message_id := 1, content := some "x", sender := 8, is_edited := true }
    "like" "added" none (by decide) (by decide)

/-- Counterexample for C2: user 7 holds two live connections (1 and 2) in
the room; a read receipt originated by user 7 is delivered only to user 8's
connection — connection 2, user 7's *other* connection, is excluded too,
because the handler filters by user id, not by originating connection. -/
theorem C2_counterexample :
    deliveredConns db0 [(1, 7), (2, 7), (3, 8)] (.readReceipt 1 7 100)
      = [(3, 8)]
    ∧ (2, 7) ∉ deliveredConns db0 [(1, 7), (2, 7), (3, 8)] (.readReceipt 1 7 100)
    ∧ deliveredConns db0 [(1, 7), (2, 7), (3, 8)] (.userTyping 7 true 100)
      = [(3, 8)] := by
  refine ⟨rfl, by decide, rfl⟩

/-- Claim C2, amended: read-receipt and typing-changed broadcasts
originated by user `orig` are suppressed on every connection whose
authenticated user is `orig` (not just the originating connection), and are
delivered to every room connection belonging to a different user. -/
theorem C2_self_echo_filtering (db : DB) (room : List (ConnId × UserId))
    (mid : MsgId) (orig : UserId) (t : Time) (b : Bool) :
    (∀ cnn, (cnn, orig) ∈ room →
      (cnn, orig) ∉ deliveredConns db room (.readReceipt mid orig t)
      ∧ (cnn, orig) ∉ deliveredConns db room (.userTyping orig b t))
    ∧ (∀ cnn w, (cnn, w) ∈ room → w ≠ orig →
      (cnn, w) ∈ deliveredConns db room (.readReceipt mid orig t)
      ∧ (cnn, w) ∈ deliveredConns db room (.userTyping orig b t)) := by
  constructor
  · intro cnn hmem
    constructor
    · intro hdel
      rcases List.mem_filter.mp hdel with ⟨-, hpred⟩
      simp [deliver] at hpred
    · intro hdel
      rcases List.mem_filter.mp hdel with ⟨-, hpred⟩
      simp [deliver] at hpred
  · intro cnn w hmem hw
    refine ⟨List.mem_filter.mpr ⟨hmem, ?_⟩, List.mem_filter.mpr ⟨hmem, ?_⟩⟩
    · simp [deliver]
      exact fun h => hw h.symm
    · simp [deliver]
      exact fun h => hw h.symm

/-- Witness for C2 amended, with user 7 originating and holding connections
1 and 2, user 8 holding connection 3. -/
theorem C2_witness :
    ((2, 7) ∈ [((1 : ConnId), (7 : UserId)), (2, 7), (3, 8)]
      ∧ (2, 7) ∉ deliveredConns db0 [(1, 7), (2, 7), (3, 8)] (.readReceipt 1 7 100)
      ∧ (2, 7) ∉ deliveredConns db0 [(1, 7), (2, 7), (3, 8)] (.userTyping 7 false 100))
    ∧ ((3, 8) ∈ [((1 : ConnId), (7 : UserId)), (2, 7), (3, 8)]
      ∧ (3, 8) ∈ deliveredConns db0 [(1, 7), (2, 7), (3, 8)] (.readReceipt 1 7 100)
      ∧ (3, 8) ∈ deliveredConns db0 [(1, 7), (2, 7), (3, 8)] (.userTyping 7 false 100)) := by
  have h := C2_self_echo_filtering db0 [(1, 7), (2, 7), (3, 8)] 1 7 100 false
  have h1 := h.1 2 (by decide)
  have h2 := h.2 3 8 (by decide) (by decide)
  exact ⟨⟨by decide, h1.1, h1.2⟩, ⟨by decide, h2.1, h2.2⟩⟩

/-- Claim C10: for message M and requesting user U, the restore endpoint
removes an existing `MessageDeletion(M, U)` row and broadcasts a
`message_restored` event carrying the full message to the room, after which
the message serializes for U with its decrypted content again; with no such
row it returns HTTP 400 and leaves all state unchanged. -/
theorem C10_restore_message (ciph : Cipher) (db : DB) (u : UserId)
    (mid : MsgId) (m : Msg) (hm : findMsg db mid = some m) :
    (db.messageDeletions.contains (mid, u) = true →
      ∃ db1,
        rest_restore_message ciph db u mid
          = ⟨db1, 200,
             [⟨roomGroup m.conversation,
               .messageRestored (serializeMessage ciph db1 u m)⟩]⟩
        ∧ hasMessageDeletion db1 mid u = false
        ∧ (serializeMessage ciph db1 u m).content = get_decrypted_content ciph db1 m)
    ∧ (db.messageDeletions.contains (mid, u) = false →
        rest_restore_message ciph db u mid = ⟨db, 400, []⟩) := by
  have hmid : m.message_id = mid := by
    have := List.find?_some hm
    simpa using this
  have hnd : hasMessageDeletion (removeMessageDeletion db mid u) mid u = false := by
    rw [Bool.eq_false_iff]
    intro hany
    rcases List.any_eq_true.mp hany with ⟨d, hd, hpred⟩
    simp only [removeMessageDeletion] at hd
    rcases List.mem_filter.mp hd with ⟨-, hne⟩
    rcases d with ⟨d1, d2⟩
    simp at hpred hne
    exact hne hpred.1 hpred.2
  constructor
  · intro hdel
    have hmemdel : (mid, u) ∈ db.messageDeletions := by
      rcases (List.contains_iff_exists_mem_beq (l := db.messageDeletions)
          (a := (mid, u))).mp hdel with ⟨b, hb, he⟩
      rcases eq_of_beq he with rfl
      exact hb
    refine ⟨removeMessageDeletion db mid u, ?_, hnd, ?_⟩
    · rw [rest_restore_message, hm]
      simp [hdel, hmemdel, removeMessageDeletion]
    · simp [serializeMessage, hmid, hnd]
  · intro h
    have hnomem : (mid, u) ∉ db.messageDeletions := by
      intro hin
      have hct : db.messageDeletions.contains (mid, u) = true :=
        List.elem_eq_true_of_mem hin
      rw [h] at hct
      exact Bool.false_ne_true hct
    rw [rest_restore_message, hm]
    simp [h, hnomem]

/-- Witness for C10: restoring message 1 for user 7 in `db0del` (row
present) succeeds; restoring for user 8 (no row) yields HTTP 400. -/
theorem C10_witness :
    (∃ db1,
        rest_restore_message demoCipher db0del 7 1
          = ⟨db1, 200,
             [⟨roomGroup msg0.conversation,
               .messageRestored (serializeMessage demoCipher db1 7 msg0)⟩]⟩
        ∧ hasMessageDeletion db1 1 7 = false
        ∧ (serializeMessage demoCipher db1 7 msg0).content
            = get_decrypted_content demoCipher db1 msg0)
    ∧ rest_restore_message demoCipher db0del 8 1 = ⟨db0del, 400, []⟩ :=
  ⟨(C10_restore_message demoCipher db0del 7 1 msg0 (by decide)).1 (by decide),
   (C10_restore_message demoCipher db0del 8 1 msg0 (by decide)).2 (by decide)⟩

theorem encrypt_message_conversation_id (ciph : Cipher) (fk : String)
    (conv : Conv) (m : Option String) :
    ((encrypt_message ciph fk conv m).2).conversation_id = conv.conversation_id := by
  rw [encrypt_message]
  split
  · rfl
  · split
    rename_i key conv2 heq
    split at heq
    · cases heq
      split <;> rfl
    · cases heq
      split <;> rfl

/-- What `save_message` produces when the conversation lookup succeeds. -/
theorem save_message_spec (ciph : Cipher) (env : Env) (db : DB) (u : UserId)
    (cid : ConvId) (content : String) (rt : Option MsgId) (mt : String)
    (conv : Conv) (hconv : findConv db cid = some conv) :
    ∃ db1 msg,
      save_message ciph env db u cid content rt mt = some (db1, msg)
      ∧ msg.sender = u ∧ msg.conversation = cid ∧ msg.timestamp = env.now
      ∧ msg.message_id = env.freshMsgId
      ∧ msg ∈ db1.messages
      ∧ db1.userStatuses = db.userStatuses
      ∧ (∃ convRow ∈ db1.conversations,
          convRow.conversation_id = conv.conversation_id
          ∧ convRow.updated_at = env.now) := by
  have hconv2 : db.conversations.find? (fun c => c.conversation_id == cid)
      = some conv := hconv
  have hbeq : (conv.conversation_id == cid) = true := by
    simpa using List.find?_some hconv2
  have hid := encrypt_message_conversation_id ciph env.freshKey conv (some content)
  rcases hE : encrypt_message ciph env.freshKey conv (some content) with ⟨encC, conv2⟩
  rw [hE] at hid
  rw [save_message.eq_def, hconv]
  simp only [hE]
  refine ⟨_, _, rfl, rfl, rfl, rfl, rfl, List.mem_cons_self _ _, rfl, ?_⟩
  refine ⟨{ conv2 with updated_at := env.now }, ?_, hid, rfl⟩
  refine List.mem_map.mpr ⟨conv, List.mem_of_find?_eq_some hconv2, ?_⟩
  rw [if_pos hbeq]

theorem clear_typing_status_clears (db : DB) (u : UserId) :
    ∀ s ∈ (clear_typing_status db u).userStatuses,
      s.user = u → s.is_typing_in = none ∧ s.typing_started_at = none := by
  intro s hs hsu
  simp only [clear_typing_status] at hs
  rcases List.mem_map.mp hs with ⟨x, hx, hfx⟩
  by_cases hxu : (x.user == u) = true
  · rw [if_pos hxu] at hfx
    rw [← hfx]
    exact ⟨rfl, rfl⟩
  · rw [if_neg hxu] at hfx
    rw [← hfx] at hsu
    simp [hsu] at hxu

/-- Claim C6: a subscribed, authenticated connection sending `chat_message`
with non-empty (stripped) content persists the message (sender, target
conversation, timestamp), bumps the conversation's `updated_at` to now,
clears the sender's typing state, and emits one `chat_message_broadcast`
group send to the conversation's room; empty or whitespace-only content
yields an error event with no state change and no broadcast. -/
theorem C6_send_message (ciph : Cipher) (env : Env) (db : DB) (c : Conn)
    (u : UserId) (conv : Conv) (data : InData)
    (hu : c.user = some u)
    (hconv : findConv db c.conversation_id = some conv) :
    (pyStrip (data.message.getD "") ≠ "" →
      ∃ db1 msg,
        save_message ciph env db u c.conversation_id
            (pyStrip (data.message.getD "")) data.reply_to
            (data.message_type.getD "text") = some (db1, msg)
        ∧ receive ciph env db c (.event "chat_message" data)
            = ⟨clear_typing_status db1 u, [],
               [⟨roomGroup c.conversation_id,
                 .chatMessage (serializeMessage ciph db1 u msg)⟩], false⟩
        ∧ msg.sender = u
        ∧ msg.conversation = c.conversation_id
        ∧ msg.timestamp = env.now
        ∧ msg ∈ db1.messages
        ∧ (∃ convRow ∈ db1.conversations,
            convRow.conversation_id = conv.conversation_id
            ∧ convRow.updated_at = env.now)
        ∧ (∀ s ∈ (clear_typing_status db1 u).userStatuses,
            s.user = u → s.is_typing_in = none ∧ s.typing_started_at = none))
    ∧ (pyStrip (data.message.getD "") = "" →
        receive ciph env db c (.event "chat_message" data)
          = errTo db "Message content cannot be empty") := by
  constructor
  · intro hne
    obtain ⟨db1, msg, hsave, hsender, hconvm, hts, hid, hmem, hus, hrow⟩ :=
      save_message_spec ciph env db u c.conversation_id
        (pyStrip (data.message.getD "")) data.reply_to
        (data.message_type.getD "text") conv hconv
    refine ⟨db1, msg, hsave, ?_, hsender, hconvm, hts, hmem, hrow,
      clear_typing_status_clears db1 u⟩
    have hcne : ((pyStrip (data.message.getD "") == "")) = false := by
      rw [beq_eq_false_iff_ne]
      exact hne
    simp only [receive, beq_self_eq_true, if_true]
    rw [handle_chat_message.eq_def, hu]
    simp only [hcne, Bool.false_eq_true, if_false, hsave]
  · intro hemp
    have hceq : ((pyStrip (data.message.getD "") == "")) = true := by
      rw [beq_iff_eq]
      exact hemp
    simp only [receive, beq_self_eq_true, if_true]
    rw [handle_chat_message.eq_def, hu]
    simp only [hceq, if_true]

def dataHi : InData := { emptyData with message := some "hi" }

def dataBlank : InData := { emptyData with message := some "   " }

/-- Witness for C6: user 7 sends `"hi"` (accepted, persisted, broadcast)
and `"   "` (rejected with an error event) in conversation 1 of `db0`. -/
theorem C6_witness :
    (∃ db1 msg,
        save_message demoCipher env0 db0 7 1
            (pyStrip (dataHi.message.getD "")) dataHi.reply_to
            (dataHi.message_type.getD "text") = some (db1, msg)
        ∧ receive demoCipher env0 db0 ⟨some 7, 1⟩ (.event "chat_message" dataHi)
            = ⟨clear_typing_status db1 7, [],
               [⟨roomGroup (1 : ConvId),
                 .chatMessage (serializeMessage demoCipher db1 7 msg)⟩], false⟩
        ∧ msg.sender = 7
        ∧ msg.conversation = 1
        ∧ msg.timestamp = env0.now
        ∧ msg ∈ db1.messages
        ∧ (∃ convRow ∈ db1.conversations,
            convRow.conversation_id = conv0.conversation_id
            ∧ convRow.updated_at = env0.now)
        ∧ (∀ s ∈ (clear_typing_status db1 7).userStatuses,
            s.user = 7 → s.is_typing_in = none ∧ s.typing_started_at = none))
    ∧ receive demoCipher env0 db0 ⟨some 7, 1⟩ (.event "chat_message" dataBlank)
        = errTo db0 "Message content cannot be empty" :=
  ⟨(C6_send_message demoCipher env0 db0 ⟨some 7, 1⟩ 7 conv0 dataHi rfl
      (by decide)).1 (by decide),
   (C6_send_message demoCipher env0 db0 ⟨some 7, 1⟩ 7 conv0 dataBlank rfl
      (by decide)).2 (by decide)⟩

theorem handle_chat_message_not_closed (ciph : Cipher) (env : Env) (db : DB)
    (c : Conn) (data : InData) :
    (handle_chat_message ciph env db c data).closed = false := by
  simp only [handle_chat_message]
  repeat' split
  all_goals rfl

theorem handle_message_edit_not_closed (ciph : Cipher) (env : Env) (db : DB)
    (c : Conn) (data : InData) :
    (handle_message_edit ciph env db c data).closed = false := by
  simp only [handle_message_edit]
  repeat' split
  all_goals rfl

theorem handle_message_delete_not_closed (env : Env) (db : DB)
    (c : Conn) (data : InData) :
    (handle_message_delete env db c data).closed = false := by
  simp only [handle_message_delete]
  repeat' split
  all_goals rfl

theorem handle_reaction_not_closed (env : Env) (db : DB)
    (c : Conn) (data : InData) :
    (handle_reaction env db c data).closed = false := by
  simp only [handle_reaction]
  repeat' split
  all_goals rfl

theorem handle_read_receipt_not_closed (env : Env) (db : DB)
    (c : Conn) (data : InData) :
    (handle_read_receipt env db c data).closed = false := by
  simp only [handle_read_receipt]
  repeat' split
  all_goals rfl

theorem handle_user_typing_not_closed (env : Env) (db : DB)
    (c : Conn) (data : InData) :
    (handle_user_typing env db c data).closed = false := by
  simp only [handle_user_typing]
  repeat' split
  all_goals rfl

/-- `ChatConsumer.receive` contains no `close` call: no inbound frame ever
closes the connection. -/
theorem receive_not_closed (ciph : Cipher) (env : Env) (db : DB) (c : Conn)
    (f : Frame) : (receive ciph env db c f).closed = false := by
  rcases f with _ | ⟨ty, data⟩
  · rfl
  · simp only [receive]
    repeat' split
    · exact handle_chat_message_not_closed ciph env db c data
    · exact handle_message_edit_not_closed ciph env db c data
    · exact handle_message_delete_not_closed env db c data
    · exact handle_reaction_not_closed env db c data
    · exact handle_read_receipt_not_closed env db c data
    · exact handle_user_typing_not_closed env db c data
    · rfl
    · rfl

/-- Counterexample for C3: an authenticated sender's `read_receipt` frame
with a missing `message_id` is silently ignored — no error event is sent
back (the claim requires a structured error event); and a `reaction` frame
with the unknown reaction kind `"zzz"` is not rejected — it is applied and
broadcast to the room rather than producing an error event. -/
theorem C3_counterexample :
    receive demoCipher env0 db0 ⟨some 7, 1⟩ (.event "read_receipt" emptyData)
      = noChange db0
    ∧ (receive demoCipher env0 db0 ⟨some 7, 1⟩
        (.event "read_receipt" emptyData)).sent = []
    ∧ (receive demoCipher env0 db0 ⟨some 7, 1⟩
        (.event "reaction"
          { emptyData with message_id := some 1, reaction := some "zzz" })).broadcasts
        ≠ []
    ∧ (receive demoCipher env0 db0 ⟨some 7, 1⟩
        (.event "reaction"
          { emptyData with message_id := some 1, reaction := some "zzz" })).sent
        = [] := by
  refine ⟨rfl, rfl, ?_, rfl⟩
  decide

/-- Claim C3, amended: unknown event kinds, malformed frames, and
validation failures (empty content, missing required field) never close the
connection and never broadcast; a structured error event goes back to the
sender in every such case *except* a read-receipt with a missing message
id, which is silently ignored; unknown reaction kinds are not validated on
the realtime path. -/
theorem C3_error_handling (ciph : Cipher) (env : Env) (db : DB) (c : Conn)
    (u : UserId) (data : InData) (ty : String)
    (hu : c.user = some u) :
    (∀ f, (receive ciph env db c f).closed = false)
    ∧ receive ciph env db c .malformed = errTo db "Invalid JSON format"
    ∧ ((ty == "chat_message") = false → (ty == "message_edit") = false →
       (ty == "message_delete") = false → (ty == "reaction") = false →
       (ty == "read_receipt") = false → (ty == "user_typing") = false →
       (ty == "ping") = false →
        receive ciph env db c (.event ty data) = errTo db "Unknown event type")
    ∧ (pyStrip (data.message.getD "") = "" →
        receive ciph env db c (.event "chat_message" data)
          = errTo db "Message content cannot be empty")
    ∧ (data.message_id = none →
        receive ciph env db c (.event "message_edit" data)
          = errTo db "Message ID and content are required")
    ∧ (data.message_id = none →
        receive ciph env db c (.event "message_delete" data)
          = errTo db "Message ID is required")
    ∧ ((data.message_id = none ∨ strTruthy data.reaction = false) →
        receive ciph env db c (.event "reaction" data)
          = errTo db "Message ID and reaction are required")
    ∧ (data.message_id = none →
        receive ciph env db c (.event "read_receipt" data) = noChange db) := by
  refine ⟨receive_not_closed ciph env db c, rfl, ?_, ?_, ?_, ?_, ?_, ?_⟩
  · intro h1 h2 h3 h4 h5 h6 h7
    simp only [receive, h1, h2, h3, h4, h5, h6, h7, Bool.false_eq_true,
      if_false]
  · intro hemp
    have hceq : ((pyStrip (data.message.getD "") == "")) = true := by
      rw [beq_iff_eq]
      exact hemp
    simp only [receive, beq_self_eq_true, if_true]
    rw [handle_chat_message.eq_def, hu]
    simp only [hceq, if_true]
  · intro hmid
    simp only [receive]
    rw [if_neg (by decide), if_pos (by decide), handle_message_edit.eq_def, hu]
    simp only [hmid]
  · intro hmid
    simp only [receive]
    rw [if_neg (by decide), if_neg (by decide), if_pos (by decide),
      handle_message_delete.eq_def, hu]
    simp only [hmid]
  · intro hval
    simp only [receive]
    rw [if_neg (by decide), if_neg (by decide), if_neg (by decide),
      if_pos (by decide), handle_reaction.eq_def, hu]
    rcases hval with hmid | hreac
    · simp only [hmid]
    · cases hm2 : data.message_id with
      | none => simp only [hm2]
      | some mid => simp only [hm2, hreac, Bool.not_false, if_true]
  · intro hmid
    simp only [receive]
    rw [if_neg (by decide), if_neg (by decide), if_neg (by decide),
      if_neg (by decide), if_pos (by decide), handle_read_receipt.eq_def, hu]
    simp only [hmid]

/-- Witness for C3 amended, with user 7's authenticated connection in
conversation 1 of `db0` and an empty inbound payload. -/
theorem C3_witness :
    (∀ f, (receive demoCipher env0 db0 ⟨some 7, 1⟩ f).closed = false)
    ∧ receive demoCipher env0 db0 ⟨some 7, 1⟩ .malformed
        = errTo db0 "Invalid JSON format"
    ∧ receive demoCipher env0 db0 ⟨some 7, 1⟩ (.event "bogus" emptyData)
        = errTo db0 "Unknown event type"
    ∧ receive demoCipher env0 db0 ⟨some 7, 1⟩ (.event "chat_message" emptyData)
        = errTo db0 "Message content cannot be empty"
    ∧ receive demoCipher env0 db0 ⟨some 7, 1⟩ (.event "message_edit" emptyData)
        = errTo db0 "Message ID and content are required"
    ∧ receive demoCipher env0 db0 ⟨some 7, 1⟩ (.event "message_delete" emptyData)
        = errTo db0 "Message ID is required"
    ∧ receive demoCipher env0 db0 ⟨some 7, 1⟩ (.event "reaction" emptyData)
        = errTo db0 "Message ID and reaction are required"
    ∧ receive demoCipher env0 db0 ⟨some 7, 1⟩ (.event "read_receipt" emptyData)
        = noChange db0 := by
  have h := C3_error_handling demoCipher env0 db0 ⟨some 7, 1⟩ 7 emptyData
    "bogus" rfl
  exact ⟨h.1, h.2.1, h.2.2.1 (by decide) (by decide) (by decide) (by decide)
      (by decide) (by decide) (by decide),
    h.2.2.2.1 (by decide), h.2.2.2.2.1 rfl, h.2.2.2.2.2.1 rfl,
    h.2.2.2.2.2.2.1 (Or.inl rfl), h.2.2.2.2.2.2.2 rfl⟩

/-- Group and `"type"` string of one group-send call: the two coordinates
that decide which room receives the event and which consumer method handles
it. -/
def sendKey (b : GroupSend) : String × String := (b.group, b.event.btype)

/-- Counterexample for C8: when the requester already has a
`MessageDeletion` row (`db0del`, user 7, message 1), the realtime delete
handler still broadcasts a `message_deleted_broadcast`, but the REST
`delete_message` endpoint broadcasts nothing; likewise the REST reaction
endpoint rejects the unknown kind `"zzz"` without broadcasting while the
realtime handler broadcasts it — the two transports do not broadcast under
the same conditions. -/
theorem C8_counterexample :
    (receive demoCipher env0 db0del ⟨some 7, 1⟩
        (.event "message_delete" { emptyData with message_id := some 1 })).broadcasts
      = [⟨roomGroup 1, .messageDeleted 1 7 env0.now⟩]
    ∧ (rest_delete_message env0 db0del 7 1).broadcasts = []
    ∧ (receive demoCipher env0 db0 ⟨some 7, 1⟩
        (.event "reaction"
          { emptyData with message_id := some 1, reaction := some "zzz" })).broadcasts
      ≠ []
    ∧ (rest_add_reaction env0 db0 7 1 "zzz").broadcasts = [] := by
  refine ⟨by decide, by decide, by decide, by decide⟩

/-- Claim C8, amended: for each of the five mutations available on both
transports (create message, delete message, react, mark-read, set-typing),
the REST endpoint and the realtime handler emit a broadcast with the same
event type through the same room group — but not always under the same
conditions (see the counterexample: re-deleting and unknown reaction kinds
diverge). -/
theorem C8_same_event_same_group (ciph : Cipher) (env : Env) (db : DB)
    (u : UserId) (cid : ConvId) (mid : MsgId) (conv : Conv) (m : Msg)
    (content kind : String) (b : Bool) (lm : Msg)
    (hconvp : findConvWithParticipant db cid u = some conv)
    (hconv : findConv db cid = some conv)
    (hm : findMsg db mid = some m)
    (hmc : m.conversation = cid)
    (hpart : isParticipant db cid u = true)
    (hcontent : pyStrip content ≠ "")
    (hkind : REACTION_CHOICES.contains kind = true)
    (hkne : strTruthy (some kind) = true)
    (hrow : db.messageDeletions.contains (mid, u) = false)
    (hlm : latestEligibleMsg db cid u = some lm) :
    ((handle_chat_message ciph env db ⟨some u, cid⟩
        { emptyData with message := some content }).broadcasts.map sendKey
      = [(roomGroup cid, "chat_message_broadcast")]
    ∧ (rest_create_message ciph env db u cid content none).broadcasts.map sendKey
      = [(roomGroup cid, "chat_message_broadcast")])
    ∧ ((handle_message_delete env db ⟨some u, cid⟩
        { emptyData with message_id := some mid }).broadcasts.map sendKey
      = [(roomGroup cid, "message_deleted_broadcast")]
    ∧ (rest_delete_message env db u mid).broadcasts.map sendKey
      = [(roomGroup cid, "message_deleted_broadcast")])
    ∧ ((handle_reaction env db ⟨some u, cid⟩
        { emptyData with message_id := some mid, reaction := some kind }).broadcasts.map sendKey
      = [(roomGroup cid, "reaction_broadcast")]
    ∧ (rest_add_reaction env db u mid kind).broadcasts.map sendKey
      = [(roomGroup cid, "reaction_broadcast")])
    ∧ ((handle_read_receipt env db ⟨some u, cid⟩
        { emptyData with message_id := some mid }).broadcasts.map sendKey
      = [(roomGroup cid, "read_receipt_broadcast")]
    ∧ (rest_mark_messages_read env db u cid).broadcasts.map sendKey
      = [(roomGroup cid, "read_receipt_broadcast")])
    ∧ ((handle_user_typing env db ⟨some u, cid⟩
        { emptyData with is_typing := some b }).broadcasts.map sendKey
      = [(roomGroup cid, "user_typing_broadcast")]
    ∧ (rest_set_typing_status env db u cid b).broadcasts.map sendKey
      = [(roomGroup cid, "user_typing_broadcast")]) := by
  have hcne : ((pyStrip content == "")) = false := by
    rw [beq_eq_false_iff_ne]
    exact hcontent
  have hpartm : isParticipant db m.conversation u = true := by
    rw [hmc]
    exact hpart
  refine ⟨⟨?_, ?_⟩, ⟨?_, ?_⟩, ⟨?_, ?_⟩, ⟨?_, ?_⟩, ⟨?_, ?_⟩⟩
  · obtain ⟨db1, msg, hsave, -, -, -, -, -, -, -⟩ :=
      save_message_spec ciph env db u cid (pyStrip content) none "text" conv hconv
    rw [handle_chat_message.eq_def]
    simp only [emptyData, Option.getD, hcne, hsave, Bool.false_eq_true, if_false]
    rfl
  · rw [rest_create_message.eq_def, hconvp]
    simp only [Option.getD, hcne, Bool.false_eq_true, if_false]
    rfl
  · have hdel : ∃ db2, delete_message_for_user db u mid = some db2 := by
      rw [delete_message_for_user.eq_def, hm]
      simp only [hpartm, Bool.not_true, Bool.false_eq_true, if_false]
      split
      · exact ⟨_, rfl⟩
      · exact ⟨_, rfl⟩
    obtain ⟨db2, hdel⟩ := hdel
    rw [handle_message_delete.eq_def]
    simp only [emptyData, hdel]
    rfl
  · rw [rest_delete_message.eq_def, hm]
    simp only [hpartm, hpart, hmc, Bool.not_true, Bool.false_eq_true,
      if_false, hrow]
    rfl
  · have htog : ∃ t, toggle_reaction env db u mid kind = some t := by
      rw [toggle_reaction.eq_def, hm]
      simp only []
      split
      · exact ⟨_, rfl⟩
      · exact ⟨_, rfl⟩
    obtain ⟨⟨act, rd, db2⟩, htog⟩ := htog
    rw [handle_reaction.eq_def]
    simp only [emptyData, Option.getD, hkne, Bool.not_true,
      Bool.false_eq_true, if_false, htog]
    rfl
  · have htog : ∃ t, toggle_reaction env db u mid kind = some t := by
      rw [toggle_reaction.eq_def, hm]
      simp only []
      split
      · exact ⟨_, rfl⟩
      · exact ⟨_, rfl⟩
    obtain ⟨⟨act, rd, db2⟩, htog⟩ := htog
    rw [rest_add_reaction.eq_def, hm]
    simp only [hkind, Bool.not_true, Bool.false_eq_true, if_false, htog, hmc]
    rfl
  · have hmark : ∃ db2, mark_message_read env db u mid = some db2 := by
      rw [mark_message_read.eq_def, hm]
      exact ⟨_, rfl⟩
    obtain ⟨db2, hmark⟩ := hmark
    rw [handle_read_receipt.eq_def]
    simp only [emptyData, hmark]
    rfl
  · rw [rest_mark_messages_read.eq_def, hconvp, hlm]
    rfl
  · have hset : ∃ db2, set_typing_status env db u cid b = some db2 := by
      rw [set_typing_status.eq_def, hconv]
      exact ⟨_, rfl⟩
    obtain ⟨db2, hset⟩ := hset
    rw [handle_user_typing.eq_def]
    simp only [emptyData, Option.getD, hset]
    rfl
  · rw [rest_set_typing_status.eq_def, hconvp]
    rfl

/-- Witness for C8 amended, in `db0`: user 7, conversation 1, message 1,
content `"hi"`, reaction kind `"like"`. -/
theorem C8_witness :
    ((handle_chat_message demoCipher env0 db0 ⟨some 7, 1⟩
        { emptyData with message := some "hi" }).broadcasts.map sendKey
      = [(roomGroup 1, "chat_message_broadcast")]
    ∧ (rest_create_message demoCipher env0 db0 7 1 "hi" none).broadcasts.map sendKey
      = [(roomGroup 1, "chat_message_broadcast")])
    ∧ ((handle_message_delete env0 db0 ⟨some 7, 1⟩
        { emptyData with message_id := some 1 }).broadcasts.map sendKey
      = [(roomGroup 1, "message_deleted_broadcast")]
    ∧ (rest_delete_message env0 db0 7 1).broadcasts.map sendKey
      = [(roomGroup 1, "message_deleted_broadcast")])
    ∧ ((handle_reaction env0 db0 ⟨some 7, 1⟩
        { emptyData with message_id := some 1, reaction := some "like" }).broadcasts.map sendKey
      = [(roomGroup 1, "reaction_broadcast")]
    ∧ (rest_add_reaction env0 db0 7 1 "like").broadcasts.map sendKey
      = [(roomGroup 1, "reaction_broadcast")])
    ∧ ((handle_read_receipt env0 db0 ⟨some 7, 1⟩
        { emptyData with message_id := some 1 }).broadcasts.map sendKey
      = [(roomGroup 1, "read_receipt_broadcast")]
    ∧ (rest_mark_messages_read env0 db0 7 1).broadcasts.map sendKey
      = [(roomGroup 1, "read_receipt_broadcast")])
    ∧ ((handle_user_typing env0 db0 ⟨some 7, 1⟩
        { emptyData with is_typing := some true }).broadcasts.map sendKey
      = [(roomGroup 1, "user_typing_broadcast")]
    ∧ (rest_set_typing_status env0 db0 7 1 true).broadcasts.map sendKey
      = [(roomGroup 1, "user_typing_broadcast")]) :=
  C8_same_event_same_group demoCipher env0 db0 7 1 1 conv0 msg0 "hi" "like"
    true msg0 (by decide) (by decide) (by decide) (by decide) (by decide)
    (by decide) (by decide) (by decide) (by decide) (by decide)
